import Mathlib

/-!
# PriorBox_vulkan (ncnn): a shallow embedding of `src/layer/vulkan/priorbox_vulkan.cpp`

The layer provisions two compute pipelines (Caffe style and MXNet style), uploads its three
configuration arrays, and on every forward pass records one compute dispatch.

Conventions of the embedding

* C++ `int` values are `Int`, and the `int` operations `+`, `-`, `*` of `create_pipeline` and
  `forward` are `int_add`, `int_sub`, `int_mul`: the exact result wrapped to 32 bits
  (`wrap_int`), which is what the operation leaves in a 32-bit register.  `in_int_range x`
  says that the exact result `x` fits, so that nothing wraps.
* C++ `float` values are `ℚ`: the arithmetic of `forward` (one division per step) is taken
  exactly.
* `std::vector<T>` is `List T`; reading `bottom_blobs[i]` past the end is undefined behaviour
  and is modelled as a fault that ends the run.
* Pointers to pipelines are `Option Pipeline`, the null pointer being `none`.
-/

namespace ncnn

/-! ## 32-bit `int` arithmetic -/

/-- The value a 32-bit `int` holds when the exact result of an operation is `x`: the
representative of `x` modulo 2^32 between -2^31 and 2^31 - 1. -/
def wrap_int (x : Int) : Int := (x + 2147483648) % 4294967296 - 2147483648

/-- The `int` operation `a + b`. -/
def int_add (a b : Int) : Int := wrap_int (a + b)

/-- The `int` operation `a - b`. -/
def int_sub (a b : Int) : Int := wrap_int (a - b)

/-- The `int` operation `a * b`. -/
def int_mul (a b : Int) : Int := wrap_int (a * b)

/-- The exact value `x` is one an `int` can hold: between `INT_MIN` and `INT_MAX`. -/
abbrev in_int_range (x : Int) : Prop := -2147483648 ≤ x ∧ x ≤ 2147483647

/-! ## Collaborators declared in the engine headers -/

/-- Modelled from the spec: the host tensor `Mat` holding a configuration array, "an ordered
sequence of float (possibly empty)".  Its declaration is in the engine headers, which are not
part of the layer's source file. -/
structure Mat where
  data : List ℚ
deriving DecidableEq, Repr

/-- The member `Mat::w` of a one-dimensional array: its number of elements. -/
def Mat.w (m : Mat) : Int := m.data.length

/-- The predicate `Mat::empty()`. -/
def Mat.empty (m : Mat) : Bool := m.data.isEmpty

/-- Modelled from the spec: a device allocator, asked for a number of bytes; `none` is the null
result of a failed allocation, `some p` a buffer handle. -/
abbrev VkAllocator := Int → Option Nat

/-- Modelled from the spec: the device tensor `VkMat` ("tensor/buffer value types exposing
create, width/height and an is-empty predicate used as the allocation-failure signal").  A
default-constructed `VkMat` has every member zero and no data. -/
structure VkMat where
  data : Option Nat := none
  elemsize : Nat := 0
  elempack : Int := 0
  dims : Int := 0
  w : Int := 0
  h : Int := 0
  c : Int := 0
  cstep : Int := 0
deriving DecidableEq, Repr

/-- The member function `VkMat::total()`: the number of elements of the tensor. -/
def VkMat.total (m : VkMat) : Int := m.cstep * m.c

/-- The predicate `VkMat::empty()`. -/
def VkMat.empty (m : VkMat) : Bool := m.data.isNone || m.total == 0

/-- The helper `alignSize(sz, n)`: `sz` rounded up to a multiple of `n`. -/
def alignSize (sz : Int) (n : Int) : Int := (sz + n - 1) / n * n

/-- Modelled from the spec: the one-dimensional overload
`VkMat::create(w, elemsize, elempack, allocator, staging_allocator)`.  The shape is set first,
then the buffer is requested when the tensor has elements; `data` is whatever the allocator
yields, so every outcome of the allocation is covered by some `allocator`. -/
def VkMat.create (w : Int) (elemsize : Nat) (elempack : Int)
    (allocator staging_allocator : VkAllocator) : VkMat :=
  let _ := staging_allocator
  let m : VkMat :=
    { data := none, elemsize := elemsize, elempack := elempack,
      dims := 1, w := w, h := 1, c := 1, cstep := w }
  if 0 < m.total then { m with data := allocator (alignSize (m.total * elemsize) 4) } else m

/-- Modelled from the spec: the two-dimensional overload
`VkMat::create(w, h, elemsize, elempack, allocator, staging_allocator)`. -/
def VkMat.create_2d (w h : Int) (elemsize : Nat) (elempack : Int)
    (allocator staging_allocator : VkAllocator) : VkMat :=
  let _ := staging_allocator
  let m : VkMat :=
    { data := none, elemsize := elemsize, elempack := elempack,
      dims := 2, w := w, h := h, c := 1, cstep := w * h }
  if 0 < m.total then { m with data := allocator (alignSize (m.total * elemsize) 4) } else m

/-- The capability record `vkdev->info`. -/
structure GpuInfo where
  support_fp16_storage : Bool
deriving DecidableEq, Repr

/-- The device `vkdev` of a layer. -/
structure VulkanDevice where
  info : GpuInfo
deriving DecidableEq, Repr

/-- The per-call options `Option` of the engine (named `Opt` here, `Option` being taken). -/
structure Opt where
  blob_vkallocator : VkAllocator
  staging_vkallocator : VkAllocator

/-- The union `vk_specialization_type`, written through its member `i` or `f`. -/
inductive vk_specialization_type where
  | i (v : Int)
  | f (v : ℚ)
deriving DecidableEq, Repr

/-- The union `vk_constant_type`, written through its member `i` or `f`. -/
inductive vk_constant_type where
  | i (v : Int)
  | f (v : ℚ)
deriving DecidableEq, Repr

/-- Modelled from the spec: the `Pipeline` abstraction, "create(name, specialization constants,
input binding count, dynamic parameter count)" with a "tune for device" step before it. -/
structure Pipeline where
  vkdev : VulkanDevice
  optimal_local_size_xyz : Bool
  name : String
  specializations : List vk_specialization_type
  binding_count : Nat
  push_constant_count : Nat
deriving DecidableEq, Repr

/-- The expression `new Pipeline(vkdev)`. -/
def Pipeline.new (vkdev : VulkanDevice) : Pipeline :=
  { vkdev := vkdev, optimal_local_size_xyz := false, name := "",
    specializations := [], binding_count := 0, push_constant_count := 0 }

/-- The call `pipeline->set_optimal_local_size_xyz()`. -/
def Pipeline.set_optimal_local_size_xyz (p : Pipeline) : Pipeline :=
  { p with optimal_local_size_xyz := true }

/-- The call `pipeline->create(name, specializations, binding_count, push_constant_count)`. -/
def Pipeline.create (p : Pipeline) (name : String)
    (specializations : List vk_specialization_type)
    (binding_count push_constant_count : Nat) : Pipeline :=
  { p with name := name, specializations := specializations,
           binding_count := binding_count, push_constant_count := push_constant_count }

/-- The two pipeline members of the layer, naming the one handed to `record_pipeline`. -/
inductive PipelineMember where
  | pipeline_priorbox
  | pipeline_priorbox_mxnet
deriving DecidableEq, Repr

/-- One call of `cmd.record_pipeline(pipeline, bindings, constants, dispatcher)`. -/
structure Dispatch where
  pipeline : PipelineMember
  handle : Option Pipeline
  bindings : List VkMat
  constants : List vk_constant_type
  dispatcher : VkMat
deriving DecidableEq, Repr

/-- The command stream `VkCompute`: the dispatches recorded so far, oldest first. -/
abbrev VkCompute := List Dispatch

/-- The call `cmd.record_pipeline(...)`: one more dispatch at the end of the stream. -/
def VkCompute.record_pipeline (cmd : VkCompute) (pipeline : PipelineMember)
    (handle : Option Pipeline) (bindings : List VkMat) (constants : List vk_constant_type)
    (dispatcher : VkMat) : VkCompute :=
  cmd ++ [{ pipeline := pipeline, handle := handle, bindings := bindings,
            constants := constants, dispatcher := dispatcher }]

/-- Modelled from the spec: the transfer stream `VkTransfer` with its "device transfer
primitive: upload(host array) -> device buffer".  `transfer` is what the device does with one
host array: the status of the transfer (0 for success) and the device buffer it leaves;
`uploads` lists the arrays handed over so far. -/
structure VkTransfer where
  transfer : Mat → Int × VkMat
  uploads : List Mat

/-- The call `cmd.record_upload(src, dst)`: the status of the transfer, the new `dst`, and the
stream with the upload recorded. -/
def VkTransfer.record_upload (cmd : VkTransfer) (src : Mat) : Int × VkMat × VkTransfer :=
  ((cmd.transfer src).1, (cmd.transfer src).2, { cmd with uploads := cmd.uploads ++ [src] })

/-! ## The layer -/

/-- Modelled from the spec: the parameters of the base layer `PriorBox` (the spec's
`LayerConfig`).  `image_width` and `image_height` are `int` members, as `forward` copies them
into `int image_w`, `int image_h`; `step_width`, `step_height` and `offset` are `float`;
`flip` and `clip` are stored into the `i` member of a specialization constant and `flip` is
tested as a condition. -/
structure PriorBox where
  min_sizes : Mat
  max_sizes : Mat
  aspect_ratios : Mat
  variances : Fin 4 → ℚ
  flip : Int
  clip : Int
  image_width : Int
  image_height : Int
  step_width : ℚ
  step_height : ℚ
  offset : ℚ

/-- The class `PriorBox_vulkan`: the base layer, the device, the two pipeline pointers and the
three device buffers. -/
structure PriorBox_vulkan extends PriorBox where
  support_vulkan : Bool
  vkdev : VulkanDevice
  pipeline_priorbox : Option Pipeline
  pipeline_priorbox_mxnet : Option Pipeline
  min_sizes_gpu : VkMat
  max_sizes_gpu : VkMat
  aspect_ratios_gpu : VkMat

/-- The constructor `PriorBox_vulkan::PriorBox_vulkan()`, over the parameters of the base
layer and the device the layer is placed on. -/
def PriorBox_vulkan.ctor (base : PriorBox) (vkdev : VulkanDevice) : PriorBox_vulkan :=
  { toPriorBox := base,
    support_vulkan := true,
    vkdev := vkdev,
    pipeline_priorbox := none,
    pipeline_priorbox_mxnet := none,
    min_sizes_gpu := {},
    max_sizes_gpu := {},
    aspect_ratios_gpu := {} }

/-- The member function `PriorBox_vulkan::create_pipeline`: the return value and the layer
afterwards. -/
def PriorBox_vulkan.create_pipeline (self : PriorBox_vulkan) (opt : Opt) :
    Int × PriorBox_vulkan :=
  let _ := opt
  -- caffe style
  let pipeline_priorbox :=
    let num_min_size := self.min_sizes.w
    let num_max_size := self.max_sizes.w
    let num_aspect_ratio := self.aspect_ratios.w
    let num_prior :=
      int_add (int_add (int_mul num_min_size num_aspect_ratio) num_min_size) num_max_size
    let num_prior := if self.flip ≠ 0 then
                       int_add num_prior (int_mul num_min_size num_aspect_ratio)
                     else num_prior
    let specializations : List vk_specialization_type :=
      [ .i self.flip, .i self.clip, .f self.offset,
        .f (self.variances 0), .f (self.variances 1),
        .f (self.variances 2), .f (self.variances 3),
        .i num_min_size, .i num_max_size, .i num_aspect_ratio, .i num_prior ]
    ((Pipeline.new self.vkdev).set_optimal_local_size_xyz).create "priorbox" specializations 4 6
  -- mxnet style
  let pipeline_priorbox_mxnet :=
    let num_sizes := self.min_sizes.w
    let num_ratios := self.aspect_ratios.w
    let num_prior := int_add (int_sub num_sizes 1) num_ratios
    let specializations : List vk_specialization_type :=
      [ .i self.clip, .f self.offset, .i num_sizes, .i num_ratios, .i num_prior ]
    ((Pipeline.new self.vkdev).set_optimal_local_size_xyz).create "priorbox_mxnet"
      specializations 3 4
  (0, { self with pipeline_priorbox := some pipeline_priorbox,
                  pipeline_priorbox_mxnet := some pipeline_priorbox_mxnet })

/-- The member function `PriorBox_vulkan::destroy_pipeline`: both pipelines are deleted
(deleting a null pointer does nothing) and both pointers are set to null. -/
def PriorBox_vulkan.destroy_pipeline (self : PriorBox_vulkan) (opt : Opt) :
    Int × PriorBox_vulkan :=
  let _ := opt
  let self := { self with pipeline_priorbox := none }
  let self := { self with pipeline_priorbox_mxnet := none }
  (0, self)

/-- The member function `PriorBox_vulkan::upload_model`: the return value, the layer with its
device buffers, and the transfer stream afterwards.  The result of each `record_upload` call is
dropped, as in the source, where the call is a statement of its own. -/
def PriorBox_vulkan.upload_model (self : PriorBox_vulkan) (cmd : VkTransfer) :
    Int × PriorBox_vulkan × VkTransfer :=
  let r := cmd.record_upload self.min_sizes
  let self := { self with min_sizes_gpu := r.2.1 }
  let cmd := r.2.2
  let (self, cmd) :=
    if 0 < self.max_sizes.w then
      let r := cmd.record_upload self.max_sizes
      ({ self with max_sizes_gpu := r.2.1 }, r.2.2)
    else (self, cmd)
  let r := cmd.record_upload self.aspect_ratios
  let self := { self with aspect_ratios_gpu := r.2.1 }
  let cmd := r.2.2
  (0, self, cmd)

/-- What a completed call of `forward` leaves: the return value, the output tensor
`top_blobs[0]`, the command stream, and the indices at which `bottom_blobs` was read. -/
structure ForwardOutcome where
  ret : Int
  top_blob : VkMat
  cmd : VkCompute
  reads : List Nat
deriving DecidableEq, Repr

/-- The result of running `forward`: it completes, or it reads `bottom_blobs` past its end
(`reads` then ends with the offending index). -/
inductive ForwardResult where
  | fault (reads : List Nat)
  | done (out : ForwardOutcome)
deriving DecidableEq, Repr

/-- The indices of `bottom_blobs` a run of `forward` has read, or tried to read. -/
def ForwardResult.reads : ForwardResult → List Nat
  | .fault reads => reads
  | .done out => out.reads

/-- The expression `bottom_blobs[i]`, with the indices read before it: the element and the
longer list of indices, or a fault when `i` is past the end. -/
def at_index (bottom_blobs : List VkMat) (i : Nat) (reads : List Nat) :
    Except (List Nat) (VkMat × List Nat) :=
  match bottom_blobs[i]? with
  | some b => .ok (b, reads ++ [i])
  | none => .error (reads ++ [i])

/-- The MXNet-style block of `forward` (the body of its `if`, "mxnet style
_contrib_MultiBoxPrior"), entered with the feature-map size `w`, `h`, the element size and the
indices read so far. -/
def PriorBox_vulkan.forward_mxnet (self : PriorBox_vulkan) (w h : Int) (elemsize : Nat)
    (reads : List Nat) (cmd : VkCompute) (opt : Opt) : ForwardOutcome :=
  let step_w := self.step_width
  let step_h := self.step_height
  let step_w := if step_w = -233 then 1 / (w : ℚ) else step_w
  let step_h := if step_h = -233 then 1 / (h : ℚ) else step_h
  let num_sizes := self.min_sizes.w
  let num_ratios := self.aspect_ratios.w
  let num_prior := int_add (int_sub num_sizes 1) num_ratios
  let top_blob := VkMat.create (int_mul (int_mul (int_mul 4 w) h) num_prior) elemsize 1
    opt.blob_vkallocator opt.staging_vkallocator
  if top_blob.empty then
    { ret := -100, top_blob := top_blob, cmd := cmd, reads := reads }
  else
    let bindings := [top_blob, self.min_sizes_gpu, self.aspect_ratios_gpu]
    let constants : List vk_constant_type := [.i w, .i h, .f step_w, .f step_h]
    let dispatcher : VkMat := { w := num_sizes, h := w, c := h }
    let cmd := cmd.record_pipeline .pipeline_priorbox_mxnet self.pipeline_priorbox_mxnet
      bindings constants dispatcher
    { ret := 0, top_blob := top_blob, cmd := cmd, reads := reads }

/-- The Caffe-style block of `forward`, from the resolution of the steps to the end, entered
with the feature-map size, the resolved image size `image_w`, `image_h`, the element size and
the indices read so far. -/
def PriorBox_vulkan.forward_caffe (self : PriorBox_vulkan) (w h image_w image_h : Int)
    (elemsize : Nat) (reads : List Nat) (cmd : VkCompute) (opt : Opt) : ForwardOutcome :=
  let step_w := self.step_width
  let step_h := self.step_height
  let step_w := if step_w = -233 then (image_w : ℚ) / (w : ℚ) else step_w
  let step_h := if step_h = -233 then (image_h : ℚ) / (h : ℚ) else step_h
  let num_min_size := self.min_sizes.w
  let num_max_size := self.max_sizes.w
  let num_aspect_ratio := self.aspect_ratios.w
  let num_prior :=
    int_add (int_add (int_mul num_min_size num_aspect_ratio) num_min_size) num_max_size
  let num_prior := if self.flip ≠ 0 then
                     int_add num_prior (int_mul num_min_size num_aspect_ratio)
                   else num_prior
  let top_blob := VkMat.create_2d (int_mul (int_mul (int_mul 4 w) h) num_prior) 2 elemsize 1
    opt.blob_vkallocator opt.staging_vkallocator
  if top_blob.empty then
    { ret := -100, top_blob := top_blob, cmd := cmd, reads := reads }
  else
    let bindings :=
      [top_blob, self.min_sizes_gpu,
       if 0 < num_max_size then self.max_sizes_gpu else self.min_sizes_gpu,
       self.aspect_ratios_gpu]
    let constants : List vk_constant_type :=
      [.i w, .i h, .f (image_w : ℚ), .f (image_h : ℚ), .f step_w, .f step_h]
    let dispatcher : VkMat := { w := num_min_size, h := w, c := h }
    let cmd := cmd.record_pipeline .pipeline_priorbox self.pipeline_priorbox
      bindings constants dispatcher
    { ret := 0, top_blob := top_blob, cmd := cmd, reads := reads }

/-- The member function `PriorBox_vulkan::forward`: the reads of the feature-map size, the
element size, the choice of the style, and on the Caffe side the resolution of the image size;
the two blocks that follow are `forward_mxnet` and `forward_caffe`.  `top_blobs[0]` is the
caller's output slot; the tensor left in it is part of the outcome. -/
def PriorBox_vulkan.forward (self : PriorBox_vulkan) (bottom_blobs : List VkMat)
    (cmd : VkCompute) (opt : Opt) : ForwardResult :=
  let run : Except (List Nat) ForwardOutcome := do
    let (b, reads) ← at_index bottom_blobs 0 []
    let w := b.w
    let (b, reads) ← at_index bottom_blobs 0 reads
    let h := b.h
    let elemsize : Nat := if self.vkdev.info.support_fp16_storage then 2 else 4
    if bottom_blobs.length = 1 ∧ self.image_width = -233 ∧ self.image_height = -233
        ∧ self.max_sizes.empty = true then
      return self.forward_mxnet w h elemsize reads cmd opt
    let image_w := self.image_width
    let image_h := self.image_height
    let (image_w, reads) ←
      if image_w = -233 then (do
        let (b, reads) ← at_index bottom_blobs 1 reads
        pure (b.w, reads))
      else pure (image_w, reads)
    let (image_h, reads) ←
      if image_h = -233 then (do
        let (b, reads) ← at_index bottom_blobs 1 reads
        pure (b.h, reads))
      else pure (image_h, reads)
    return self.forward_caffe w h image_w image_h elemsize reads cmd opt
  match run with
  | .ok out => .done out
  | .error reads => .fault reads

/-- The element size `forward` chooses from the device capability. -/
def PriorBox_vulkan.elemsize (self : PriorBox_vulkan) : Nat :=
  if self.vkdev.info.support_fp16_storage then 2 else 4

/-! ## Concrete layers and inputs -/

/-- A device without half-precision storage. -/
def example_device : VulkanDevice := { info := { support_fp16_storage := false } }

/-- Options whose allocator hands out buffer 1 for every request. -/
def example_opt : Opt :=
  { blob_vkallocator := fun _ => some 1, staging_vkallocator := fun _ => some 2 }

/-- A Caffe-style configuration: two min sizes, one aspect ratio, no max sizes, no flip, the
image size configured as 300 x 300, both steps left to be derived. -/
def caffe_params : PriorBox :=
  { min_sizes := ⟨[30, 60]⟩,
    max_sizes := ⟨[]⟩,
    aspect_ratios := ⟨[2]⟩,
    variances := fun k => if k.val < 2 then 1 / 10 else 1 / 5,
    flip := 0,
    clip := 0,
    image_width := 300,
    image_height := 300,
    step_width := -233,
    step_height := -233,
    offset := 1 / 2 }

/-- The same arrays with the image size left as the sentinel: on one input this is the
MXNet-style configuration. -/
def mxnet_params : PriorBox :=
  { caffe_params with image_width := -233, image_height := -233 }

/-- A transfer stream on a device where every transfer succeeds and leaves a one-dimensional
buffer as long as the host array. -/
def working_transfer : VkTransfer :=
  { transfer := fun m =>
      (0, { data := some (100 + m.data.length), elemsize := 4, elempack := 1, dims := 1,
            w := m.w, h := 1, c := 1, cstep := m.w }),
    uploads := [] }

/-- A transfer stream on a device where every transfer fails with status -1 and leaves an
empty buffer. -/
def failing_transfer : VkTransfer :=
  { transfer := fun _ => (-1, {}), uploads := [] }

/-- The Caffe-style layer: constructed, its pipelines created, its arrays uploaded. -/
def caffe_layer : PriorBox_vulkan :=
  (((PriorBox_vulkan.ctor caffe_params example_device).create_pipeline example_opt).2.upload_model
    working_transfer).2.1

/-- The MXNet-style layer: constructed, its pipelines created, its arrays uploaded. -/
def mxnet_layer : PriorBox_vulkan :=
  (((PriorBox_vulkan.ctor mxnet_params example_device).create_pipeline example_opt).2.upload_model
    working_transfer).2.1

/-- A feature map of width 10 and height 10 on the device. -/
def feature_10x10 : VkMat :=
  { data := some 7, elemsize := 4, elempack := 1, dims := 3, w := 10, h := 10, c := 1,
    cstep := 100 }

/-- A feature map of width 20 and height 10 on the device. -/
def feature_20x10 : VkMat :=
  { data := some 8, elemsize := 4, elempack := 1, dims := 3, w := 20, h := 10, c := 1,
    cstep := 200 }

/-- A feature map of width 30000 and height 30000 on the device, large enough for the `int`
product of the output width to wrap. -/
def feature_30000x30000 : VkMat :=
  { data := some 10, elemsize := 4, elempack := 1, dims := 3, w := 30000, h := 30000, c := 1,
    cstep := 900000000 }

/-- An image tensor of width 320 and height 240 on the device, for the second input. -/
def image_320x240 : VkMat :=
  { data := some 9, elemsize := 4, elempack := 1, dims := 3, w := 320, h := 240, c := 3,
    cstep := 76800 }

/-! ## 32-bit arithmetic against exact arithmetic -/

/-- An exact result that fits in an `int` is left as it is. -/
theorem wrap_int_of_range (x : Int) (h : in_int_range x) : wrap_int x = x := by
  obtain ⟨h1, h2⟩ := h
  unfold wrap_int
  omega

/-- A wrapped value is congruent to the exact one modulo 2^32. -/
theorem wrap_int_modEq (x : Int) : Int.ModEq 4294967296 (wrap_int x) x := by
  unfold wrap_int Int.ModEq
  omega

/-- Congruent exact values wrap to the same `int`. -/
theorem wrap_int_congr {x y : Int} (h : Int.ModEq 4294967296 x y) :
    wrap_int x = wrap_int y := by
  unfold Int.ModEq at h
  unfold wrap_int
  omega

/-- The product `4 * w * h * n` taken step by step in `int` is the exact product wrapped
once, and `n` may be replaced by any value congruent to it. -/
theorem width_exact (w h n m : Int) (hn : Int.ModEq 4294967296 n m) :
    int_mul (int_mul (int_mul 4 w) h) n = wrap_int (4 * w * h * m) := by
  unfold int_mul
  have h1 : Int.ModEq 4294967296 (wrap_int (4 * w)) (4 * w) := wrap_int_modEq _
  have h2 : Int.ModEq 4294967296 (wrap_int (wrap_int (4 * w) * h)) (4 * w * h) :=
    (wrap_int_modEq _).trans (h1.mul_right h)
  exact wrap_int_congr (h2.mul hn)

/-- The MXNet-style `num_prior` taken in `int` is the exact `a - 1 + b` wrapped once. -/
theorem mxnet_num_prior_exact (a b : Int) :
    int_add (int_sub a 1) b = wrap_int (a - 1 + b) := by
  unfold int_add int_sub
  exact wrap_int_congr ((wrap_int_modEq _).add_right b)

/-- The Caffe-style `num_prior` taken in `int` is the exact value wrapped once. -/
theorem caffe_num_prior_exact (flip a b c : Int) :
    (if flip ≠ 0 then int_add (int_add (int_add (int_mul a b) a) c) (int_mul a b)
      else int_add (int_add (int_mul a b) a) c)
      = wrap_int (a * b + a + c + (if flip ≠ 0 then a * b else 0)) := by
  have h0 : Int.ModEq 4294967296 (int_mul a b) (a * b) := wrap_int_modEq _
  have h1 : Int.ModEq 4294967296 (int_add (int_mul a b) a) (a * b + a) :=
    (wrap_int_modEq _).trans (h0.add_right a)
  have h2 : Int.ModEq 4294967296 (int_add (int_add (int_mul a b) a) c) (a * b + a + c) :=
    (wrap_int_modEq _).trans (h1.add_right c)
  split_ifs with hf
  · exact wrap_int_congr (h2.add h0)
  · have h3 : int_add (int_add (int_mul a b) a) c
        = wrap_int (int_add (int_mul a b) a + c) := rfl
    rw [h3, add_zero]
    exact wrap_int_congr (h1.add_right c)

/-! ## How `forward` runs -/

theorem forward_one_mxnet (self : PriorBox_vulkan) (b0 : VkMat) (cmd : VkCompute) (opt : Opt)
    (hw : self.image_width = -233) (hh : self.image_height = -233)
    (hm : self.max_sizes.empty = true) :
    self.forward [b0] cmd opt
      = .done (self.forward_mxnet b0.w b0.h self.elemsize [0, 0] cmd opt) := by
  simp [PriorBox_vulkan.forward, PriorBox_vulkan.elemsize, at_index, hw, hh, hm, bind,
    Except.bind, pure, Except.pure]

theorem forward_one_caffe (self : PriorBox_vulkan) (b0 : VkMat) (cmd : VkCompute) (opt : Opt)
    (hw : self.image_width ≠ -233) (hh : self.image_height ≠ -233) :
    self.forward [b0] cmd opt
      = .done (self.forward_caffe b0.w b0.h self.image_width self.image_height
          self.elemsize [0, 0] cmd opt) := by
  simp [PriorBox_vulkan.forward, PriorBox_vulkan.elemsize, at_index, hw, hh, bind,
    Except.bind, pure, Except.pure]

theorem forward_one_fault (self : PriorBox_vulkan) (b0 : VkMat) (cmd : VkCompute) (opt : Opt)
    (hs : self.image_width = -233 ∨ self.image_height = -233)
    (hn : ¬ (self.image_width = -233 ∧ self.image_height = -233
              ∧ self.max_sizes.empty = true)) :
    self.forward [b0] cmd opt = .fault [0, 0, 1] := by
  by_cases hw : self.image_width = -233 <;> by_cases hh : self.image_height = -233 <;>
    by_cases hm : self.max_sizes.empty = true <;>
    simp_all [PriorBox_vulkan.forward, at_index, bind, Except.bind, pure, Except.pure]

theorem forward_two (self : PriorBox_vulkan) (b0 b1 : VkMat) (rest : List VkMat)
    (cmd : VkCompute) (opt : Opt) :
    self.forward (b0 :: b1 :: rest) cmd opt
      = .done (self.forward_caffe b0.w b0.h
          (if self.image_width = -233 then b1.w else self.image_width)
          (if self.image_height = -233 then b1.h else self.image_height)
          self.elemsize
          ([0, 0] ++ (if self.image_width = -233 then [1] else [])
                  ++ (if self.image_height = -233 then [1] else []))
          cmd opt) := by
  by_cases hw : self.image_width = -233 <;> by_cases hh : self.image_height = -233 <;>
    simp [PriorBox_vulkan.forward, PriorBox_vulkan.elemsize, at_index, hw, hh, bind,
      Except.bind, pure, Except.pure]

theorem forward_nil (self : PriorBox_vulkan) (cmd : VkCompute) (opt : Opt) :
    self.forward [] cmd opt = .fault [0] := by
  simp [PriorBox_vulkan.forward, at_index, bind, Except.bind]

/-- Every run of `forward` on a non-empty input list is one of three: the MXNet-style block on
one input with both image sentinels and no max sizes; the Caffe-style block with the image size
resolved from the configuration or from the second input; or a fault at index 1, when the Caffe
side needs a second input that was not supplied. -/
theorem forward_cases (self : PriorBox_vulkan) (b0 : VkMat) (rest : List VkMat)
    (cmd : VkCompute) (opt : Opt) :
    ((rest = [] ∧ self.image_width = -233 ∧ self.image_height = -233
        ∧ self.max_sizes.empty = true)
      ∧ self.forward (b0 :: rest) cmd opt
          = .done (self.forward_mxnet b0.w b0.h self.elemsize [0, 0] cmd opt))
    ∨ (¬ (rest = [] ∧ self.image_width = -233 ∧ self.image_height = -233
            ∧ self.max_sizes.empty = true)
      ∧ ∃ image_w image_h reads,
          self.forward (b0 :: rest) cmd opt
            = .done (self.forward_caffe b0.w b0.h image_w image_h self.elemsize reads cmd opt)
          ∧ (self.image_width ≠ -233 → image_w = self.image_width)
          ∧ (self.image_width = -233 → ∃ b1 tl, rest = b1 :: tl ∧ image_w = b1.w)
          ∧ (self.image_height ≠ -233 → image_h = self.image_height)
          ∧ (self.image_height = -233 → ∃ b1 tl, rest = b1 :: tl ∧ image_h = b1.h)
          ∧ reads = [0, 0] ++ (if self.image_width = -233 then [1] else [])
                           ++ (if self.image_height = -233 then [1] else []))
    ∨ (¬ (rest = [] ∧ self.image_width = -233 ∧ self.image_height = -233
            ∧ self.max_sizes.empty = true)
      ∧ rest = [] ∧ (self.image_width = -233 ∨ self.image_height = -233)
      ∧ self.forward (b0 :: rest) cmd opt = .fault [0, 0, 1]) := by
  cases rest with
  | nil =>
    by_cases hmx : self.image_width = -233 ∧ self.image_height = -233
        ∧ self.max_sizes.empty = true
    · exact Or.inl ⟨⟨rfl, hmx⟩, forward_one_mxnet self b0 cmd opt hmx.1 hmx.2.1 hmx.2.2⟩
    · by_cases hs : self.image_width = -233 ∨ self.image_height = -233
      · exact Or.inr (Or.inr ⟨fun h => hmx h.2, rfl, hs, forward_one_fault self b0 cmd opt hs hmx⟩)
      · have hw : self.image_width ≠ -233 := fun h => hs (Or.inl h)
        have hh : self.image_height ≠ -233 := fun h => hs (Or.inr h)
        refine Or.inr (Or.inl ⟨fun h => hmx h.2, self.image_width, self.image_height, [0, 0],
          forward_one_caffe self b0 cmd opt hw hh, fun _ => rfl, fun h => absurd h hw,
          fun _ => rfl, fun h => absurd h hh, ?_⟩)
        simp [hw, hh]
  | cons b1 tl =>
    refine Or.inr (Or.inl ⟨fun h => by simp at h, _, _, _, forward_two self b0 b1 tl cmd opt,
      fun h => by simp [h], fun h => ⟨b1, tl, rfl, by simp [h]⟩,
      fun h => by simp [h], fun h => ⟨b1, tl, rfl, by simp [h]⟩, rfl⟩)

/-! ## The tensor a `create` call leaves -/

theorem create_shape (w : Int) (elemsize : Nat) (elempack : Int) (a s : VkAllocator) :
    (VkMat.create w elemsize elempack a s).dims = 1
    ∧ (VkMat.create w elemsize elempack a s).w = w
    ∧ (VkMat.create w elemsize elempack a s).h = 1
    ∧ (VkMat.create w elemsize elempack a s).total = w := by
  simp only [VkMat.create]
  split <;> simp [VkMat.total]

theorem create_2d_shape (w h : Int) (elemsize : Nat) (elempack : Int) (a s : VkAllocator) :
    (VkMat.create_2d w h elemsize elempack a s).dims = 2
    ∧ (VkMat.create_2d w h elemsize elempack a s).w = w
    ∧ (VkMat.create_2d w h elemsize elempack a s).h = h
    ∧ (VkMat.create_2d w h elemsize elempack a s).total = w * h := by
  simp only [VkMat.create_2d]
  split <;> simp [VkMat.total]

/-! ## The two blocks of `forward` -/

theorem forward_mxnet_top (self : PriorBox_vulkan) (w h : Int) (elemsize : Nat)
    (reads : List Nat) (cmd : VkCompute) (opt : Opt) :
    (self.forward_mxnet w h elemsize reads cmd opt).top_blob
      = VkMat.create
          (int_mul (int_mul (int_mul 4 w) h)
            (int_add (int_sub self.min_sizes.w 1) self.aspect_ratios.w))
          elemsize 1 opt.blob_vkallocator opt.staging_vkallocator
    ∧ (self.forward_mxnet w h elemsize reads cmd opt).reads = reads := by
  unfold PriorBox_vulkan.forward_mxnet
  simp only []
  split <;> simp

theorem forward_caffe_top (self : PriorBox_vulkan) (w h image_w image_h : Int) (elemsize : Nat)
    (reads : List Nat) (cmd : VkCompute) (opt : Opt) :
    (self.forward_caffe w h image_w image_h elemsize reads cmd opt).top_blob
      = VkMat.create_2d
          (int_mul (int_mul (int_mul 4 w) h)
            (if self.flip ≠ 0 then
              int_add
                (int_add (int_add (int_mul self.min_sizes.w self.aspect_ratios.w)
                  self.min_sizes.w) self.max_sizes.w)
                (int_mul self.min_sizes.w self.aspect_ratios.w)
             else
              int_add (int_add (int_mul self.min_sizes.w self.aspect_ratios.w)
                self.min_sizes.w) self.max_sizes.w))
          2 elemsize 1 opt.blob_vkallocator opt.staging_vkallocator
    ∧ (self.forward_caffe w h image_w image_h elemsize reads cmd opt).reads = reads := by
  simp only [PriorBox_vulkan.forward_caffe]
  split_ifs <;> simp

/-- The MXNet-style block either fails to allocate and records nothing, or records one dispatch
on `pipeline_priorbox_mxnet`. -/
theorem forward_mxnet_record (self : PriorBox_vulkan) (w h : Int) (elemsize : Nat)
    (reads : List Nat) (cmd : VkCompute) (opt : Opt) :
    ((self.forward_mxnet w h elemsize reads cmd opt).top_blob.empty = true
      ∧ (self.forward_mxnet w h elemsize reads cmd opt).ret = -100
      ∧ (self.forward_mxnet w h elemsize reads cmd opt).cmd = cmd)
    ∨ ((self.forward_mxnet w h elemsize reads cmd opt).top_blob.empty = false
      ∧ (self.forward_mxnet w h elemsize reads cmd opt).ret = 0
      ∧ (self.forward_mxnet w h elemsize reads cmd opt).cmd = cmd ++
          [{ pipeline := .pipeline_priorbox_mxnet,
             handle := self.pipeline_priorbox_mxnet,
             bindings := [(self.forward_mxnet w h elemsize reads cmd opt).top_blob,
                          self.min_sizes_gpu, self.aspect_ratios_gpu],
             constants := [.i w, .i h,
               .f (if self.step_width = -233 then 1 / (w : ℚ) else self.step_width),
               .f (if self.step_height = -233 then 1 / (h : ℚ) else self.step_height)],
             dispatcher := { w := self.min_sizes.w, h := w, c := h } }]) := by
  unfold PriorBox_vulkan.forward_mxnet
  simp only []
  split
  · left; simp_all
  · right; simp_all [VkCompute.record_pipeline]

/-- The Caffe-style block either fails to allocate and records nothing, or records one dispatch
on `pipeline_priorbox`. -/
theorem forward_caffe_record (self : PriorBox_vulkan) (w h image_w image_h : Int)
    (elemsize : Nat) (reads : List Nat) (cmd : VkCompute) (opt : Opt) :
    ((self.forward_caffe w h image_w image_h elemsize reads cmd opt).top_blob.empty = true
      ∧ (self.forward_caffe w h image_w image_h elemsize reads cmd opt).ret = -100
      ∧ (self.forward_caffe w h image_w image_h elemsize reads cmd opt).cmd = cmd)
    ∨ ((self.forward_caffe w h image_w image_h elemsize reads cmd opt).top_blob.empty = false
      ∧ (self.forward_caffe w h image_w image_h elemsize reads cmd opt).ret = 0
      ∧ (self.forward_caffe w h image_w image_h elemsize reads cmd opt).cmd = cmd ++
          [{ pipeline := .pipeline_priorbox,
             handle := self.pipeline_priorbox,
             bindings := [(self.forward_caffe w h image_w image_h elemsize reads cmd opt).top_blob,
                          self.min_sizes_gpu,
                          if 0 < self.max_sizes.w then self.max_sizes_gpu else self.min_sizes_gpu,
                          self.aspect_ratios_gpu],
             constants := [.i w, .i h, .f (image_w : ℚ), .f (image_h : ℚ),
               .f (if self.step_width = -233 then (image_w : ℚ) / (w : ℚ) else self.step_width),
               .f (if self.step_height = -233 then (image_h : ℚ) / (h : ℚ)
                   else self.step_height)],
             dispatcher := { w := self.min_sizes.w, h := w, c := h } }]) := by
  simp only [PriorBox_vulkan.forward_caffe]
  by_cases hf : self.flip = 0
  · simp only [hf, ne_eq, not_true_eq_false, if_false]
    split
    · left; simp_all
    · right; simp_all [VkCompute.record_pipeline]
  · simp only [hf, ne_eq, not_false_eq_true, if_true]
    split
    · left; simp_all
    · right; simp_all [VkCompute.record_pipeline]

/-- On a 30000 x 30000 feature map the exact width 4 * 30000 * 30000 * 4 = 14400000000 of the
Caffe-style layer does not fit in an `int`: the run asks for the wrapped width 1515098112. -/
theorem forward_width_wraps :
    ∃ out, caffe_layer.forward [feature_30000x30000] [] example_opt = .done out
      ∧ ¬ in_int_range (4 * feature_30000x30000.w * feature_30000x30000.h * 4)
      ∧ out.top_blob.w = 1515098112 :=
  ⟨_, rfl, by decide, by decide⟩

/-! ## The claims -/

/-- C1: on a non-empty input list, `forward` takes the MXNet-style path exactly when one input
tensor is supplied, `image_width` and `image_height` are both -233 and `max_sizes` is empty,
and the Caffe-style path in every other case.  On the MXNet-style path the run completes, the
tensor it leaves is the one-dimensional one its `create` call makes, and when that tensor is
not empty exactly one dispatch is recorded, on `pipeline_priorbox_mxnet`.  On the Caffe-style
path with the inputs it reads supplied, the run completes, the tensor is the two-dimensional
one, and when it is not empty exactly one dispatch is recorded, on `pipeline_priorbox`; with a
second input missing that it needs, the run stops at index 1.  An empty tensor leaves the
stream unchanged on both paths.  Nothing else of the configuration or of the feature map
enters the choice. -/
theorem C1_variant_selection (self : PriorBox_vulkan) (b0 : VkMat) (rest : List VkMat)
    (cmd : VkCompute) (opt : Opt) :
    (((b0 :: rest).length = 1 ∧ self.image_width = -233 ∧ self.image_height = -233
        ∧ self.max_sizes.empty = true) →
      ∃ out, self.forward (b0 :: rest) cmd opt = .done out
        ∧ out.top_blob
            = VkMat.create
                (int_mul (int_mul (int_mul 4 b0.w) b0.h)
                  (int_add (int_sub self.min_sizes.w 1) self.aspect_ratios.w))
                self.elemsize 1 opt.blob_vkallocator opt.staging_vkallocator
        ∧ out.top_blob.dims = 1
        ∧ (out.top_blob.empty = true → out.cmd = cmd)
        ∧ (out.top_blob.empty = false →
            ∃ d, out.cmd = cmd ++ [d] ∧ d.pipeline = .pipeline_priorbox_mxnet
              ∧ d.handle = self.pipeline_priorbox_mxnet))
    ∧ (¬ ((b0 :: rest).length = 1 ∧ self.image_width = -233 ∧ self.image_height = -233
          ∧ self.max_sizes.empty = true) →
        (rest ≠ [] ∨ (self.image_width ≠ -233 ∧ self.image_height ≠ -233)) →
      ∃ out, self.forward (b0 :: rest) cmd opt = .done out
        ∧ out.top_blob
            = VkMat.create_2d
                (int_mul (int_mul (int_mul 4 b0.w) b0.h)
                  (if self.flip ≠ 0 then
                    int_add
                      (int_add (int_add (int_mul self.min_sizes.w self.aspect_ratios.w)
                        self.min_sizes.w) self.max_sizes.w)
                      (int_mul self.min_sizes.w self.aspect_ratios.w)
                   else
                    int_add (int_add (int_mul self.min_sizes.w self.aspect_ratios.w)
                      self.min_sizes.w) self.max_sizes.w))
                2 self.elemsize 1 opt.blob_vkallocator opt.staging_vkallocator
        ∧ out.top_blob.dims = 2
        ∧ (out.top_blob.empty = true → out.cmd = cmd)
        ∧ (out.top_blob.empty = false →
            ∃ d, out.cmd = cmd ++ [d] ∧ d.pipeline = .pipeline_priorbox
              ∧ d.handle = self.pipeline_priorbox))
    ∧ (¬ ((b0 :: rest).length = 1 ∧ self.image_width = -233 ∧ self.image_height = -233
          ∧ self.max_sizes.empty = true) →
        ¬ (rest ≠ [] ∨ (self.image_width ≠ -233 ∧ self.image_height ≠ -233)) →
      self.forward (b0 :: rest) cmd opt = .fault [0, 0, 1])
    ∧ (∀ out d, self.forward (b0 :: rest) cmd opt = .done out → out.cmd = cmd ++ [d] →
        ((d.pipeline = .pipeline_priorbox_mxnet ↔
            ((b0 :: rest).length = 1 ∧ self.image_width = -233 ∧ self.image_height = -233
              ∧ self.max_sizes.empty = true))
          ∧ (d.pipeline = .pipeline_priorbox ↔
            ¬ ((b0 :: rest).length = 1 ∧ self.image_width = -233 ∧ self.image_height = -233
              ∧ self.max_sizes.empty = true)))) := by
  have hlen : (b0 :: rest).length = 1 ↔ rest = [] := by simp
  rw [hlen]
  rcases forward_cases self b0 rest cmd opt with ⟨hmx, hrun⟩
      | ⟨hn, iw, ih, rd, hrun, -, hiw2, -, hih2, -⟩ | ⟨hn, hr, hs, hrun⟩
  · have htop := (forward_mxnet_top self b0.w b0.h self.elemsize [0, 0] cmd opt).1
    have hrec := forward_mxnet_record self b0.w b0.h self.elemsize [0, 0] cmd opt
    refine ⟨fun _ => ⟨_, hrun, htop, by rw [htop]; exact (create_shape _ _ _ _ _).1, ?_, ?_⟩,
      fun h => absurd hmx h, fun h => absurd hmx h, ?_⟩
    · intro he
      rcases hrec with ⟨-, -, hc⟩ | ⟨he2, -, -⟩
      · exact hc
      · rw [he2] at he
        exact absurd he (by decide)
    · intro he
      rcases hrec with ⟨he2, -, -⟩ | ⟨-, -, hc⟩
      · rw [he2] at he
        exact absurd he (by decide)
      · exact ⟨_, hc, rfl, rfl⟩
    · intro out d ho hd
      rw [hrun] at ho
      cases ho
      rcases hrec with ⟨-, -, hc⟩ | ⟨-, -, hc⟩
      · rw [hc] at hd
        simp at hd
      · rw [hc] at hd
        have hd2 := List.append_cancel_left hd
        simp only [List.cons.injEq, and_true] at hd2
        subst hd2
        simp [hmx]
  · have htop := (forward_caffe_top self b0.w b0.h iw ih self.elemsize rd cmd opt).1
    have hrec := forward_caffe_record self b0.w b0.h iw ih self.elemsize rd cmd opt
    refine ⟨fun h => absurd h hn,
      fun _ _ => ⟨_, hrun, htop, by rw [htop]; exact (create_2d_shape _ _ _ _ _ _).1, ?_, ?_⟩,
      ?_, ?_⟩
    · intro he
      rcases hrec with ⟨-, -, hc⟩ | ⟨he2, -, -⟩
      · exact hc
      · rw [he2] at he
        exact absurd he (by decide)
    · intro he
      rcases hrec with ⟨he2, -, -⟩ | ⟨-, -, hc⟩
      · rw [he2] at he
        exact absurd he (by decide)
      · exact ⟨_, hc, rfl, rfl⟩
    · intro _ hnin
      exfalso
      have hr : rest = [] := by
        by_contra hc
        exact hnin (Or.inl hc)
      have hs : self.image_width = -233 ∨ self.image_height = -233 := by
        by_contra hc
        push_neg at hc
        exact hnin (Or.inr hc)
      rcases hs with h | h
      · obtain ⟨b1, tl, hb, -⟩ := hiw2 h
        rw [hr] at hb
        cases hb
      · obtain ⟨b1, tl, hb, -⟩ := hih2 h
        rw [hr] at hb
        cases hb
    · intro out d ho hd
      rw [hrun] at ho
      cases ho
      rcases hrec with ⟨-, -, hc⟩ | ⟨-, -, hc⟩
      · rw [hc] at hd
        simp at hd
      · rw [hc] at hd
        have hd2 := List.append_cancel_left hd
        simp only [List.cons.injEq, and_true] at hd2
        subst hd2
        simp [hn]
  · refine ⟨fun h => absurd h hn, fun _ hin => ?_, fun _ _ => hrun, ?_⟩
    · exfalso
      rcases hin with h | ⟨h1, h2⟩
      · exact h hr
      · rcases hs with h | h
        · exact h1 h
        · exact h2 h
    · intro out d ho
      rw [hrun] at ho
      cases ho

/-- C1 at concrete inputs: the layer with sentinel image size and no max sizes records its
dispatch on `pipeline_priorbox_mxnet` when given one input, and on `pipeline_priorbox` when
given two; the layer with a configured image size records on `pipeline_priorbox` on one
input. -/
theorem C1_variant_selection_witness :
    (∃ out d, mxnet_layer.forward [feature_10x10] [] example_opt = .done out
        ∧ out.ret = 0 ∧ out.cmd = [d] ∧ d.pipeline = .pipeline_priorbox_mxnet)
    ∧ (∃ out d, mxnet_layer.forward [feature_10x10, image_320x240] [] example_opt = .done out
        ∧ out.ret = 0 ∧ out.cmd = [d] ∧ d.pipeline = .pipeline_priorbox)
    ∧ (∃ out d, caffe_layer.forward [feature_10x10] [] example_opt = .done out
        ∧ out.ret = 0 ∧ out.cmd = [d] ∧ d.pipeline = .pipeline_priorbox) := by
  refine ⟨?_, ?_, ?_⟩
  · obtain ⟨out, hrun, htop, -, -, hrec⟩ :=
      (C1_variant_selection mxnet_layer feature_10x10 [] [] example_opt).1 (by decide)
    obtain ⟨d, hc, hp, -⟩ := hrec (by rw [htop]; decide)
    have hret : out.ret = 0 := by
      have h : mxnet_layer.forward [feature_10x10] [] example_opt
          = .done (mxnet_layer.forward_mxnet 10 10 4 [0, 0] [] example_opt) := rfl
      rw [h] at hrun
      cases hrun
      decide
    exact ⟨out, d, hrun, hret, hc, hp⟩
  · obtain ⟨out, hrun, htop, -, -, hrec⟩ :=
      (C1_variant_selection mxnet_layer feature_10x10 [image_320x240] [] example_opt).2.1
        (by decide) (Or.inl (by decide))
    obtain ⟨d, hc, hp, -⟩ := hrec (by rw [htop]; decide)
    have hret : out.ret = 0 := by
      have h : mxnet_layer.forward [feature_10x10, image_320x240] [] example_opt
          = .done (mxnet_layer.forward_caffe 10 10 320 240 4 [0, 0, 1, 1] [] example_opt) := rfl
      rw [h] at hrun
      cases hrun
      decide
    exact ⟨out, d, hrun, hret, hc, hp⟩
  · obtain ⟨out, hrun, htop, -, -, hrec⟩ :=
      (C1_variant_selection caffe_layer feature_10x10 [] [] example_opt).2.1
        (by decide) (Or.inr ⟨by decide, by decide⟩)
    obtain ⟨d, hc, hp, -⟩ := hrec (by rw [htop]; decide)
    have hret : out.ret = 0 := by
      have h : caffe_layer.forward [feature_10x10] [] example_opt
          = .done (caffe_layer.forward_caffe 10 10 300 300 4 [0, 0] [] example_opt) := rfl
      rw [h] at hrun
      cases hrun
      decide
    exact ⟨out, d, hrun, hret, hc, hp⟩

/-- C2, the claim as stated fails on the Caffe-style path: for the scenario of the claim
(feature map 10 x 10, two min sizes, one aspect ratio, no max sizes, no flip), `num_prior` is 4
and `4 * w * h * num_prior` is 1600, but the tensor `forward` creates has 2 rows of 1600
elements, 3200 elements in all. -/
theorem C2_counterexample :
    ∃ out, caffe_layer.forward [feature_10x10] [] example_opt = .done out
      ∧ caffe_layer.min_sizes.w = 2 ∧ caffe_layer.aspect_ratios.w = 1
      ∧ caffe_layer.max_sizes.empty = true ∧ caffe_layer.flip = 0
      ∧ caffe_layer.pipeline_priorbox.bind (fun p => p.specializations[10]?) = some (.i 4)
      ∧ 4 * feature_10x10.w * feature_10x10.h * 4 = 1600
      ∧ out.top_blob.w = 1600 ∧ out.top_blob.h = 2
      ∧ out.top_blob.total = 3200
      ∧ out.top_blob.total ≠ 4 * feature_10x10.w * feature_10x10.h * 4 :=
  ⟨_, rfl, by decide, by decide, by decide, by decide, by decide, by decide, by decide,
    by decide, by decide, by decide⟩

/-- C2, amended: whenever the inputs suffice, the tensor `forward` creates has the width
`4 * w * h * num_prior` on both paths, with the path's own `num_prior`: the product is taken in
32-bit `int`, and is the exact product whenever that fits in an `int`.  On the MXNet-style path
the tensor is one-dimensional, so when the product is not negative and fits, it is the total
element count.  On the Caffe-style path the tensor is two-dimensional with height 2, so when
the product is not negative and twice the product fits, the total element count is twice the
product. -/
theorem C2_output_shape (self : PriorBox_vulkan) (b0 : VkMat) (rest : List VkMat)
    (cmd : VkCompute) (opt : Opt)
    (hin : rest ≠ [] ∨ (self.image_width ≠ -233 ∧ self.image_height ≠ -233)
      ∨ (self.image_width = -233 ∧ self.image_height = -233 ∧ self.max_sizes.empty = true)) :
    ∃ out, self.forward (b0 :: rest) cmd opt = .done out
      ∧ (((b0 :: rest).length = 1 ∧ self.image_width = -233 ∧ self.image_height = -233
            ∧ self.max_sizes.empty = true) →
          out.top_blob.dims = 1
          ∧ out.top_blob.h = 1
          ∧ out.top_blob.w
              = wrap_int (4 * b0.w * b0.h * (self.min_sizes.w - 1 + self.aspect_ratios.w))
          ∧ (in_int_range (4 * b0.w * b0.h * (self.min_sizes.w - 1 + self.aspect_ratios.w)) →
              out.top_blob.w
                = 4 * b0.w * b0.h * (self.min_sizes.w - 1 + self.aspect_ratios.w))
          ∧ (0 ≤ 4 * b0.w * b0.h * (self.min_sizes.w - 1 + self.aspect_ratios.w) →
              in_int_range (4 * b0.w * b0.h * (self.min_sizes.w - 1 + self.aspect_ratios.w)) →
              out.top_blob.total
                = 4 * b0.w * b0.h * (self.min_sizes.w - 1 + self.aspect_ratios.w)))
      ∧ (¬ ((b0 :: rest).length = 1 ∧ self.image_width = -233 ∧ self.image_height = -233
            ∧ self.max_sizes.empty = true) →
          out.top_blob.dims = 2
          ∧ out.top_blob.h = 2
          ∧ out.top_blob.w
              = wrap_int (4 * b0.w * b0.h *
                  (self.min_sizes.w * self.aspect_ratios.w + self.min_sizes.w + self.max_sizes.w
                    + (if self.flip ≠ 0 then self.min_sizes.w * self.aspect_ratios.w else 0)))
          ∧ (in_int_range (4 * b0.w * b0.h *
                  (self.min_sizes.w * self.aspect_ratios.w + self.min_sizes.w + self.max_sizes.w
                    + (if self.flip ≠ 0 then self.min_sizes.w * self.aspect_ratios.w else 0))) →
              out.top_blob.w
                = 4 * b0.w * b0.h *
                  (self.min_sizes.w * self.aspect_ratios.w + self.min_sizes.w + self.max_sizes.w
                    + (if self.flip ≠ 0 then self.min_sizes.w * self.aspect_ratios.w else 0)))
          ∧ (0 ≤ 4 * b0.w * b0.h *
                  (self.min_sizes.w * self.aspect_ratios.w + self.min_sizes.w + self.max_sizes.w
                    + (if self.flip ≠ 0 then self.min_sizes.w * self.aspect_ratios.w else 0)) →
              in_int_range (2 * (4 * b0.w * b0.h *
                  (self.min_sizes.w * self.aspect_ratios.w + self.min_sizes.w + self.max_sizes.w
                    + (if self.flip ≠ 0 then self.min_sizes.w * self.aspect_ratios.w else 0)))) →
              out.top_blob.total
                = 2 * (4 * b0.w * b0.h *
                  (self.min_sizes.w * self.aspect_ratios.w + self.min_sizes.w + self.max_sizes.w
                    + (if self.flip ≠ 0 then self.min_sizes.w * self.aspect_ratios.w
                       else 0))))) := by
  have hlen : (b0 :: rest).length = 1 ↔ rest = [] := by simp
  rw [hlen]
  rcases forward_cases self b0 rest cmd opt with ⟨hmx, hrun⟩ | ⟨hn, iw, ih, rd, hrun, -⟩
      | ⟨hn, hr, hs, -⟩
  · have htop := (forward_mxnet_top self b0.w b0.h self.elemsize [0, 0] cmd opt).1
    refine ⟨_, hrun, fun _ => ?_, fun h => absurd hmx h⟩
    rw [htop]
    obtain ⟨h1, h2, h3, h4⟩ := create_shape
      (int_mul (int_mul (int_mul 4 b0.w) b0.h)
        (int_add (int_sub self.min_sizes.w 1) self.aspect_ratios.w))
      self.elemsize 1 opt.blob_vkallocator opt.staging_vkallocator
    have hw : int_mul (int_mul (int_mul 4 b0.w) b0.h)
        (int_add (int_sub self.min_sizes.w 1) self.aspect_ratios.w)
        = wrap_int (4 * b0.w * b0.h * (self.min_sizes.w - 1 + self.aspect_ratios.w)) := by
      rw [mxnet_num_prior_exact]
      exact width_exact _ _ _ _ (wrap_int_modEq _)
    refine ⟨h1, h3, by rw [h2, hw], fun hr => ?_, fun _ hr => ?_⟩
    · rw [h2, hw, wrap_int_of_range _ hr]
    · rw [h4, hw, wrap_int_of_range _ hr]
  · have htop := (forward_caffe_top self b0.w b0.h iw ih self.elemsize rd cmd opt).1
    refine ⟨_, hrun, fun h => absurd h hn, fun _ => ?_⟩
    rw [htop]
    obtain ⟨h1, h2, h3, h4⟩ := create_2d_shape
      (int_mul (int_mul (int_mul 4 b0.w) b0.h)
        (if self.flip ≠ 0 then
          int_add
            (int_add (int_add (int_mul self.min_sizes.w self.aspect_ratios.w)
              self.min_sizes.w) self.max_sizes.w)
            (int_mul self.min_sizes.w self.aspect_ratios.w)
         else
          int_add (int_add (int_mul self.min_sizes.w self.aspect_ratios.w)
            self.min_sizes.w) self.max_sizes.w))
      2 self.elemsize 1 opt.blob_vkallocator opt.staging_vkallocator
    have hw : int_mul (int_mul (int_mul 4 b0.w) b0.h)
        (if self.flip ≠ 0 then
          int_add
            (int_add (int_add (int_mul self.min_sizes.w self.aspect_ratios.w)
              self.min_sizes.w) self.max_sizes.w)
            (int_mul self.min_sizes.w self.aspect_ratios.w)
         else
          int_add (int_add (int_mul self.min_sizes.w self.aspect_ratios.w)
            self.min_sizes.w) self.max_sizes.w)
        = wrap_int (4 * b0.w * b0.h *
            (self.min_sizes.w * self.aspect_ratios.w + self.min_sizes.w + self.max_sizes.w
              + (if self.flip ≠ 0 then self.min_sizes.w * self.aspect_ratios.w else 0))) := by
      rw [caffe_num_prior_exact]
      exact width_exact _ _ _ _ (wrap_int_modEq _)
    refine ⟨h1, h3, by rw [h2, hw], fun hr => ?_, fun h0 hr => ?_⟩
    · rw [h2, hw, wrap_int_of_range _ hr]
    · have hr1 : in_int_range (4 * b0.w * b0.h *
          (self.min_sizes.w * self.aspect_ratios.w + self.min_sizes.w + self.max_sizes.w
            + (if self.flip ≠ 0 then self.min_sizes.w * self.aspect_ratios.w else 0))) := by
        obtain ⟨ha, hb⟩ := hr
        constructor <;> omega
      rw [h4, hw, wrap_int_of_range _ hr1]
      ring
  · exfalso
    rcases hin with h | ⟨h1, h2⟩ | h
    · exact h hr
    · rcases hs with h | h
      · exact h1 h
      · exact h2 h
    · exact hn ⟨hr, h⟩

/-- C2, the amended statement at the scenario of the claim: one 10 x 10 feature map into the
Caffe-style layer gives a tensor of width 1600, height 2 and 3200 elements. -/
theorem C2_output_shape_witness :
    (([] : List VkMat) ≠ [] ∨ (caffe_layer.image_width ≠ -233 ∧ caffe_layer.image_height ≠ -233)
      ∨ (caffe_layer.image_width = -233 ∧ caffe_layer.image_height = -233
          ∧ caffe_layer.max_sizes.empty = true))
    ∧ in_int_range (2 * (4 * feature_10x10.w * feature_10x10.h * 4))
    ∧ ∃ out, caffe_layer.forward [feature_10x10] [] example_opt = .done out
        ∧ out.top_blob.dims = 2 ∧ out.top_blob.w = 1600 ∧ out.top_blob.h = 2
        ∧ out.top_blob.total = 3200 := by
  have hin : ([] : List VkMat) ≠ []
      ∨ (caffe_layer.image_width ≠ -233 ∧ caffe_layer.image_height ≠ -233)
      ∨ (caffe_layer.image_width = -233 ∧ caffe_layer.image_height = -233
          ∧ caffe_layer.max_sizes.empty = true) :=
    Or.inr (Or.inl ⟨by decide, by decide⟩)
  obtain ⟨out, hrun, -, hc⟩ := C2_output_shape caffe_layer feature_10x10 [] [] example_opt hin
  have hn : ¬ ([feature_10x10].length = 1 ∧ caffe_layer.image_width = -233
      ∧ caffe_layer.image_height = -233 ∧ caffe_layer.max_sizes.empty = true) := by decide
  obtain ⟨h1, h2, -, h4, h5⟩ := hc hn
  refine ⟨hin, by decide, out, hrun, h1, ?_, h2, ?_⟩
  · rw [h4 (by decide)]; decide
  · rw [h5 (by decide) (by decide)]; decide

/-- C4, the claim as stated fails: on a transfer stream whose every transfer fails with status
-1 and leaves an empty buffer, `upload_model` issues its uploads and returns 0. -/
theorem C4_counterexample :
    (failing_transfer.record_upload caffe_layer.min_sizes).1 = -1
    ∧ (failing_transfer.record_upload caffe_layer.min_sizes).2.1.empty = true
    ∧ (failing_transfer.record_upload caffe_layer.aspect_ratios).1 = -1
    ∧ (caffe_layer.upload_model failing_transfer).2.2.uploads
        = [caffe_layer.min_sizes, caffe_layer.aspect_ratios]
    ∧ (caffe_layer.upload_model failing_transfer).1 = 0 :=
  ⟨by decide, by decide, by decide, by decide, by decide⟩

/-- C4, amended: `upload_model` returns 0 for every configuration and every transfer stream,
whatever the transfers report.  It hands over `min_sizes`, then `max_sizes` when that array is
not empty, then `aspect_ratios`, and keeps the device buffer each transfer leaves. -/
theorem C4_upload_model_returns_zero (self : PriorBox_vulkan) (cmd : VkTransfer) :
    (self.upload_model cmd).1 = 0
    ∧ (self.upload_model cmd).2.2.uploads
        = cmd.uploads ++ [self.min_sizes]
            ++ (if 0 < self.max_sizes.w then [self.max_sizes] else [])
            ++ [self.aspect_ratios]
    ∧ (self.upload_model cmd).2.1.min_sizes_gpu = (cmd.transfer self.min_sizes).2
    ∧ (self.upload_model cmd).2.1.max_sizes_gpu
        = (if 0 < self.max_sizes.w then (cmd.transfer self.max_sizes).2 else self.max_sizes_gpu)
    ∧ (self.upload_model cmd).2.1.aspect_ratios_gpu = (cmd.transfer self.aspect_ratios).2 := by
  by_cases hm : 0 < self.max_sizes.w <;>
    simp [PriorBox_vulkan.upload_model, VkTransfer.record_upload, hm]

/-- C5: specialization constant 10 of the Caffe pipeline is
`num_min_size * num_aspect_ratio + num_min_size + num_max_size` when `flip` is unset and that
value plus `num_min_size * num_aspect_ratio` when `flip` is set, taken in 32-bit `int`: it is
the exact value wrapped, and the exact value itself whenever that fits in an `int`.  A
Caffe-style `forward` on the layer sizes its output with the same number: the width it asks for
is the `int` product `4 * w * h * n` with `n` the very constant `create_pipeline` stored, which
is the exact product whenever nothing overflows. -/
theorem C5_caffe_num_prior (self : PriorBox_vulkan) (popt : Opt) (b0 : VkMat)
    (rest : List VkMat) (cmd : VkCompute) (opt : Opt) :
    (self.create_pipeline popt).2.pipeline_priorbox.bind (fun p => p.specializations[10]?)
      = some (.i (wrap_int
          (self.min_sizes.w * self.aspect_ratios.w + self.min_sizes.w + self.max_sizes.w
            + (if self.flip ≠ 0 then self.min_sizes.w * self.aspect_ratios.w else 0))))
    ∧ (self.flip = 0 →
        in_int_range
          (self.min_sizes.w * self.aspect_ratios.w + self.min_sizes.w + self.max_sizes.w) →
      (self.create_pipeline popt).2.pipeline_priorbox.bind (fun p => p.specializations[10]?)
        = some (.i (self.min_sizes.w * self.aspect_ratios.w + self.min_sizes.w
                      + self.max_sizes.w)))
    ∧ (self.flip ≠ 0 →
        in_int_range
          (self.min_sizes.w * self.aspect_ratios.w + self.min_sizes.w + self.max_sizes.w
            + self.min_sizes.w * self.aspect_ratios.w) →
      (self.create_pipeline popt).2.pipeline_priorbox.bind (fun p => p.specializations[10]?)
        = some (.i (self.min_sizes.w * self.aspect_ratios.w + self.min_sizes.w
                      + self.max_sizes.w + self.min_sizes.w * self.aspect_ratios.w)))
    ∧ ((rest ≠ [] ∨ (self.image_width ≠ -233 ∧ self.image_height ≠ -233)) →
      ∃ n out,
        (self.create_pipeline popt).2.pipeline_priorbox.bind (fun p => p.specializations[10]?)
          = some (.i n)
        ∧ (self.create_pipeline popt).2.forward (b0 :: rest) cmd opt = .done out
        ∧ out.top_blob.dims = 2
        ∧ out.top_blob.w = int_mul (int_mul (int_mul 4 b0.w) b0.h) n
        ∧ (in_int_range
              (self.min_sizes.w * self.aspect_ratios.w + self.min_sizes.w + self.max_sizes.w
                + (if self.flip ≠ 0 then self.min_sizes.w * self.aspect_ratios.w else 0)) →
            in_int_range (4 * b0.w * b0.h *
              (self.min_sizes.w * self.aspect_ratios.w + self.min_sizes.w + self.max_sizes.w
                + (if self.flip ≠ 0 then self.min_sizes.w * self.aspect_ratios.w else 0))) →
            n = self.min_sizes.w * self.aspect_ratios.w + self.min_sizes.w + self.max_sizes.w
                  + (if self.flip ≠ 0 then self.min_sizes.w * self.aspect_ratios.w else 0)
            ∧ out.top_blob.w = 4 * b0.w * b0.h * n)) := by
  have hspec0 : (self.create_pipeline popt).2.pipeline_priorbox.bind
      (fun p => p.specializations[10]?)
      = some (.i (if self.flip ≠ 0 then
            int_add
              (int_add (int_add (int_mul self.min_sizes.w self.aspect_ratios.w)
                self.min_sizes.w) self.max_sizes.w)
              (int_mul self.min_sizes.w self.aspect_ratios.w)
          else
            int_add (int_add (int_mul self.min_sizes.w self.aspect_ratios.w)
              self.min_sizes.w) self.max_sizes.w)) := rfl
  have hspec := hspec0
  rw [caffe_num_prior_exact] at hspec
  refine ⟨hspec, fun hf hr => ?_, fun hf hr => ?_, fun hin => ?_⟩
  · rw [hspec]
    simp only [hf, ne_eq, not_true_eq_false, if_false, add_zero]
    rw [wrap_int_of_range _ hr]
  · rw [hspec]
    simp only [hf, ne_eq, not_false_eq_true, if_true]
    rw [wrap_int_of_range _ hr]
  · have hn : ¬ (rest = [] ∧ (self.create_pipeline popt).2.image_width = -233
        ∧ (self.create_pipeline popt).2.image_height = -233
        ∧ (self.create_pipeline popt).2.max_sizes.empty = true) := by
      rintro ⟨hr, hw, -, -⟩
      rcases hin with h | ⟨h, -⟩
      · exact h hr
      · exact h hw
    rcases forward_cases (self.create_pipeline popt).2 b0 rest cmd opt
      with ⟨hmx, -⟩ | ⟨-, iw, ih, rd, hrun, -⟩ | ⟨-, hr, hs, -⟩
    · exact absurd hmx hn
    · have htop := (forward_caffe_top (self.create_pipeline popt).2 b0.w b0.h iw ih
        (self.create_pipeline popt).2.elemsize rd cmd opt).1
      have hwd : ((self.create_pipeline popt).2.forward_caffe b0.w b0.h iw ih
          (self.create_pipeline popt).2.elemsize rd cmd opt).top_blob.w
          = int_mul (int_mul (int_mul 4 b0.w) b0.h)
              (if self.flip ≠ 0 then
                int_add
                  (int_add (int_add (int_mul self.min_sizes.w self.aspect_ratios.w)
                    self.min_sizes.w) self.max_sizes.w)
                  (int_mul self.min_sizes.w self.aspect_ratios.w)
               else
                int_add (int_add (int_mul self.min_sizes.w self.aspect_ratios.w)
                  self.min_sizes.w) self.max_sizes.w) := by
        rw [htop]
        exact (create_2d_shape _ _ _ _ _ _).2.1
      refine ⟨_, _, hspec0, hrun, ?_, hwd, fun hr1 hr2 => ?_⟩
      · rw [htop]
        exact (create_2d_shape _ _ _ _ _ _).1
      · have hnp := caffe_num_prior_exact self.flip self.min_sizes.w self.aspect_ratios.w
          self.max_sizes.w
        rw [wrap_int_of_range _ hr1] at hnp
        refine ⟨hnp, ?_⟩
        rw [hwd, hnp, width_exact _ _ _ _ (Int.ModEq.refl _), wrap_int_of_range _ hr2]
    · exfalso
      rcases hin with h | ⟨h1, h2⟩
      · exact h hr
      · rcases hs with h | h
        · exact h1 h
        · exact h2 h

/-- C5 at a concrete input: the Caffe-style layer (two min sizes, one aspect ratio, no max
sizes, no flip) has constant 10 equal to 4 and asks for a width of 4 * 10 * 10 * 4 = 1600. -/
theorem C5_caffe_num_prior_witness :
    caffe_layer.flip = 0
    ∧ in_int_range (caffe_layer.min_sizes.w * caffe_layer.aspect_ratios.w
        + caffe_layer.min_sizes.w + caffe_layer.max_sizes.w)
    ∧ (caffe_layer.create_pipeline example_opt).2.pipeline_priorbox.bind
        (fun p => p.specializations[10]?) = some (.i 4)
    ∧ ∃ out, (caffe_layer.create_pipeline example_opt).2.forward [feature_10x10] [] example_opt
            = .done out
        ∧ out.top_blob.dims = 2
        ∧ out.top_blob.w = 1600 := by
  have h := C5_caffe_num_prior caffe_layer example_opt feature_10x10 [] [] example_opt
  have h4 := h.2.1 (by decide) (by decide)
  obtain ⟨n, out, hn, hrun, hdims, -, hex⟩ := h.2.2.2 (Or.inr ⟨by decide, by decide⟩)
  obtain ⟨hn2, hw⟩ := hex (by decide) (by decide)
  refine ⟨by decide, by decide, ?_, out, hrun, hdims, ?_⟩
  · rw [h4]; decide
  · rw [hw, hn2]; decide

/-- C6: specialization constant 4 of the MXNet pipeline is `num_sizes - 1 + num_ratios`, with
`num_sizes` the length of `min_sizes` and `num_ratios` the length of `aspect_ratios`, taken in
32-bit `int` (the exact value whenever it fits), for every configuration and whatever `flip`
and `max_sizes` are.  An MXNet-style `forward` on the layer sizes its output with the same
number: the width it asks for is the `int` product `4 * w * h * n` with `n` the very constant
`create_pipeline` stored, the exact product whenever nothing overflows, and the same whatever
`flip` is. -/
theorem C6_mxnet_num_prior (self : PriorBox_vulkan) (popt : Opt) (b0 : VkMat)
    (cmd : VkCompute) (opt : Opt) :
    (self.create_pipeline popt).2.pipeline_priorbox_mxnet.bind
        (fun p => p.specializations[4]?)
      = some (.i (wrap_int
          ((self.min_sizes.data.length : Int) - 1 + self.aspect_ratios.data.length)))
    ∧ (in_int_range ((self.min_sizes.data.length : Int) - 1 + self.aspect_ratios.data.length) →
      (self.create_pipeline popt).2.pipeline_priorbox_mxnet.bind
          (fun p => p.specializations[4]?)
        = some (.i ((self.min_sizes.data.length : Int) - 1 + self.aspect_ratios.data.length)))
    ∧ (∀ (flip : Int) (max_sizes : Mat),
        ({ self with flip := flip, max_sizes := max_sizes }.create_pipeline
            popt).2.pipeline_priorbox_mxnet.bind (fun p => p.specializations[4]?)
          = (self.create_pipeline popt).2.pipeline_priorbox_mxnet.bind
              (fun p => p.specializations[4]?))
    ∧ (self.image_width = -233 → self.image_height = -233 → self.max_sizes.empty = true →
      ∃ n out,
        (self.create_pipeline popt).2.pipeline_priorbox_mxnet.bind
            (fun p => p.specializations[4]?) = some (.i n)
        ∧ (self.create_pipeline popt).2.forward [b0] cmd opt = .done out
        ∧ out.top_blob.dims = 1
        ∧ out.top_blob.w = int_mul (int_mul (int_mul 4 b0.w) b0.h) n
        ∧ (in_int_range
              ((self.min_sizes.data.length : Int) - 1 + self.aspect_ratios.data.length) →
            in_int_range (4 * b0.w * b0.h *
              ((self.min_sizes.data.length : Int) - 1 + self.aspect_ratios.data.length)) →
            n = (self.min_sizes.data.length : Int) - 1 + self.aspect_ratios.data.length
            ∧ out.top_blob.w = 4 * b0.w * b0.h * n)
        ∧ ∀ (flip : Int), ∃ out2,
            ({ self with flip := flip }.create_pipeline popt).2.forward [b0] cmd opt
              = .done out2
            ∧ out2.top_blob.w = out.top_blob.w) := by
  have hspec0 : (self.create_pipeline popt).2.pipeline_priorbox_mxnet.bind
      (fun p => p.specializations[4]?)
      = some (.i (int_add (int_sub self.min_sizes.w 1) self.aspect_ratios.w)) := rfl
  have hnp : int_add (int_sub self.min_sizes.w 1) self.aspect_ratios.w
      = wrap_int ((self.min_sizes.data.length : Int) - 1 + self.aspect_ratios.data.length) :=
    mxnet_num_prior_exact _ _
  have hrun : ∀ L : PriorBox_vulkan, L.image_width = -233 → L.image_height = -233 →
      L.max_sizes.empty = true →
      ∃ out, L.forward [b0] cmd opt = .done out ∧ out.top_blob.dims = 1
        ∧ out.top_blob.w = int_mul (int_mul (int_mul 4 b0.w) b0.h)
            (int_add (int_sub L.min_sizes.w 1) L.aspect_ratios.w) := by
    intro L h1 h2 h3
    refine ⟨_, forward_one_mxnet L b0 cmd opt h1 h2 h3, ?_⟩
    rw [(forward_mxnet_top L b0.w b0.h L.elemsize [0, 0] cmd opt).1]
    exact ⟨(create_shape _ _ _ _ _).1, (create_shape _ _ _ _ _).2.1⟩
  refine ⟨by rw [hspec0, hnp], fun hr => by rw [hspec0, hnp, wrap_int_of_range _ hr],
    fun flip max_sizes => rfl, fun hw hh hm => ?_⟩
  obtain ⟨out, h1, h2, h3⟩ := hrun (self.create_pipeline popt).2 hw hh hm
  refine ⟨_, out, hspec0, h1, h2, h3, fun hr1 hr2 => ?_, fun flip => ?_⟩
  · have hnp2 := hnp
    rw [wrap_int_of_range _ hr1] at hnp2
    refine ⟨hnp2, ?_⟩
    rw [h3]
    have e : (self.create_pipeline popt).2.min_sizes.w = self.min_sizes.w := rfl
    have e2 : (self.create_pipeline popt).2.aspect_ratios.w = self.aspect_ratios.w := rfl
    rw [e, e2, hnp2, width_exact _ _ _ _ (Int.ModEq.refl _), wrap_int_of_range _ hr2]
  · obtain ⟨out2, g1, -, g3⟩ :=
      hrun ({ self with flip := flip }.create_pipeline popt).2 hw hh hm
    exact ⟨out2, g1, by rw [g3, h3]; rfl⟩

/-- C6 at a concrete input: the MXNet-style layer (two min sizes, one aspect ratio) has
constant 4 equal to 2 and asks for a width of 4 * 10 * 10 * 2 = 800; the layer with a
configured image size has the same constant 4. -/
theorem C6_mxnet_num_prior_witness :
    mxnet_layer.image_width = -233 ∧ mxnet_layer.image_height = -233
    ∧ mxnet_layer.max_sizes.empty = true
    ∧ (mxnet_layer.create_pipeline example_opt).2.pipeline_priorbox_mxnet.bind
        (fun p => p.specializations[4]?) = some (.i 2)
    ∧ (caffe_layer.create_pipeline example_opt).2.pipeline_priorbox_mxnet.bind
        (fun p => p.specializations[4]?) = some (.i 2)
    ∧ ∃ out, (mxnet_layer.create_pipeline example_opt).2.forward [feature_10x10] []
          example_opt = .done out
        ∧ out.top_blob.dims = 1 ∧ out.top_blob.w = 800 := by
  have h := C6_mxnet_num_prior mxnet_layer example_opt feature_10x10 [] example_opt
  have hc := C6_mxnet_num_prior caffe_layer example_opt feature_10x10 [] example_opt
  obtain ⟨n, out, -, hrun, hdims, -, hex, -⟩ := h.2.2.2 (by decide) (by decide) (by decide)
  obtain ⟨hn, hw⟩ := hex (by decide) (by decide)
  refine ⟨by decide, by decide, by decide, ?_, ?_, out, hrun, hdims, ?_⟩
  · rw [h.2.1 (by decide)]; decide
  · rw [hc.2.1 (by decide)]; decide
  · rw [hw, hn]; decide

/-- C7: for a feature map of width `w > 0` and height `h > 0`, the steps of the recorded
dispatch are the configured `step_width`, `step_height` wherever these are not -233.  Where one
is -233, the step is `1 / w` (`1 / h`) on the MXNet-style path, and `image_w / w`
(`image_h / h`) on the Caffe-style path, `image_w`, `image_h` being the configured image size
or, where that is -233, the width and height of the second input tensor.  The divisions are
exact and their divisors are not zero. -/
theorem C7_step_resolution (self : PriorBox_vulkan) (b0 : VkMat) (rest : List VkMat)
    (cmd : VkCompute) (opt : Opt) (out : ForwardOutcome) (d : Dispatch)
    (hw : 0 < b0.w) (hh : 0 < b0.h)
    (hrun : self.forward (b0 :: rest) cmd opt = .done out) (hd : out.cmd = cmd ++ [d]) :
    (((b0 :: rest).length = 1 ∧ self.image_width = -233 ∧ self.image_height = -233
        ∧ self.max_sizes.empty = true) →
      d.constants[2]?
          = some (.f (if self.step_width = -233 then 1 / (b0.w : ℚ) else self.step_width))
      ∧ d.constants[3]?
          = some (.f (if self.step_height = -233 then 1 / (b0.h : ℚ) else self.step_height)))
    ∧ (¬ ((b0 :: rest).length = 1 ∧ self.image_width = -233 ∧ self.image_height = -233
          ∧ self.max_sizes.empty = true) →
      ∃ image_w image_h : Int,
        (self.image_width ≠ -233 → image_w = self.image_width)
        ∧ (self.image_width = -233 → ∃ b1, (b0 :: rest)[1]? = some b1 ∧ image_w = b1.w)
        ∧ (self.image_height ≠ -233 → image_h = self.image_height)
        ∧ (self.image_height = -233 → ∃ b1, (b0 :: rest)[1]? = some b1 ∧ image_h = b1.h)
        ∧ d.constants[4]?
            = some (.f (if self.step_width = -233 then (image_w : ℚ) / (b0.w : ℚ)
                        else self.step_width))
        ∧ d.constants[5]?
            = some (.f (if self.step_height = -233 then (image_h : ℚ) / (b0.h : ℚ)
                        else self.step_height)))
    ∧ (b0.w : ℚ) ≠ 0 ∧ (b0.h : ℚ) ≠ 0 := by
  have hlen : (b0 :: rest).length = 1 ↔ rest = [] := by simp
  rw [hlen]
  refine ⟨?_, ?_, Int.cast_ne_zero.mpr (ne_of_gt hw), Int.cast_ne_zero.mpr (ne_of_gt hh)⟩
  · intro hmx
    rcases forward_cases self b0 rest cmd opt with ⟨-, hrun2⟩
        | ⟨hn, -, -, -, -, -⟩ | ⟨hn, -, -, -⟩
    · rw [hrun2] at hrun
      cases hrun
      rcases forward_mxnet_record self b0.w b0.h self.elemsize [0, 0] cmd opt
        with ⟨-, -, hc⟩ | ⟨-, -, hc⟩
      · rw [hc] at hd
        simp at hd
      · rw [hc] at hd
        have hd2 := List.append_cancel_left hd
        simp only [List.cons.injEq, and_true] at hd2
        subst hd2
        simp
    · exact absurd hmx hn
    · exact absurd hmx hn
  · intro hn
    rcases forward_cases self b0 rest cmd opt with ⟨hmx, -⟩
        | ⟨-, iw, ih, rd, hrun2, hiw, hiw2, hih, hih2, -⟩ | ⟨-, -, -, hrun2⟩
    · exact absurd hmx hn
    · rw [hrun2] at hrun
      cases hrun
      refine ⟨iw, ih, hiw, ?_, hih, ?_, ?_⟩
      · intro h
        obtain ⟨b1, tl, hr, hv⟩ := hiw2 h
        exact ⟨b1, by simp [hr], hv⟩
      · intro h
        obtain ⟨b1, tl, hr, hv⟩ := hih2 h
        exact ⟨b1, by simp [hr], hv⟩
      · rcases forward_caffe_record self b0.w b0.h iw ih self.elemsize rd cmd opt
          with ⟨-, -, hc⟩ | ⟨-, -, hc⟩
        · rw [hc] at hd
          simp at hd
        · rw [hc] at hd
          have hd2 := List.append_cancel_left hd
          simp only [List.cons.injEq, and_true] at hd2
          subst hd2
          simp
    · rw [hrun2] at hrun
      cases hrun

/-- C7 at the scenario of the claim: with `step_width = -233` and a feature map of width 20,
the MXNet-style layer on one input passes the step 1/20, and the same layer on two inputs,
which takes the Caffe-style path with the image size read from the second input (320 x 240),
passes the step 320/20. -/
theorem C7_step_resolution_witness :
    (0 < feature_20x10.w ∧ 0 < feature_20x10.h)
    ∧ mxnet_layer.step_width = -233 ∧ mxnet_layer.step_height = -233
    ∧ (∃ out d, mxnet_layer.forward [feature_20x10] [] example_opt = .done out
        ∧ out.cmd = [] ++ [d]
        ∧ d.constants[2]? = some (.f (1 / 20)) ∧ d.constants[3]? = some (.f (1 / 10)))
    ∧ (∃ out d, mxnet_layer.forward [feature_20x10, image_320x240] [] example_opt = .done out
        ∧ out.cmd = [] ++ [d]
        ∧ d.constants[4]? = some (.f (320 / 20)) ∧ d.constants[5]? = some (.f (240 / 10))) := by
  have hs : mxnet_layer.step_width = -233 := rfl
  have hs2 : mxnet_layer.step_height = -233 := rfl
  have hfw : ((feature_20x10.w : Int) : ℚ) = 20 := by
    have h : feature_20x10.w = 20 := rfl
    rw [h]; norm_num
  have hfh : ((feature_20x10.h : Int) : ℚ) = 10 := by
    have h : feature_20x10.h = 10 := rfl
    rw [h]; norm_num
  refine ⟨⟨by decide, by decide⟩, hs, hs2, ?_, ?_⟩
  · have hrun : mxnet_layer.forward [feature_20x10] [] example_opt
        = .done (mxnet_layer.forward_mxnet 20 10 4 [0, 0] [] example_opt) := rfl
    rcases forward_mxnet_record mxnet_layer 20 10 4 [0, 0] [] example_opt
      with ⟨he, -, -⟩ | ⟨-, -, hc⟩
    · exact absurd he (by decide)
    · obtain ⟨h1, h2⟩ := (C7_step_resolution mxnet_layer feature_20x10 [] [] example_opt _ _
        (by decide) (by decide) hrun hc).1 ⟨rfl, by decide, by decide, by decide⟩
      rw [if_pos hs, hfw] at h1
      rw [if_pos hs2, hfh] at h2
      exact ⟨_, _, hrun, hc, h1, h2⟩
  · have hrun : mxnet_layer.forward [feature_20x10, image_320x240] [] example_opt
        = .done (mxnet_layer.forward_caffe 20 10 320 240 4 [0, 0, 1, 1] [] example_opt) := rfl
    rcases forward_caffe_record mxnet_layer 20 10 320 240 4 [0, 0, 1, 1] [] example_opt
      with ⟨he, -, -⟩ | ⟨-, -, hc⟩
    · exact absurd he (by decide)
    · obtain ⟨iw, ih, -, hiw, -, hih, h1, h2⟩ :=
        (C7_step_resolution mxnet_layer feature_20x10 [image_320x240] [] example_opt _ _
          (by decide) (by decide) hrun hc).2.1 (by decide)
      obtain ⟨b1, hb1, hiw⟩ := hiw (by decide)
      obtain ⟨b2, hb2, hih⟩ := hih (by decide)
      have e1 : b1 = image_320x240 := by
        simp only [List.getElem?_cons_succ, List.getElem?_cons_zero, Option.some.injEq] at hb1
        exact hb1.symm
      have e2 : b2 = image_320x240 := by
        simp only [List.getElem?_cons_succ, List.getElem?_cons_zero, Option.some.injEq] at hb2
        exact hb2.symm
      subst e1 e2
      have hiw2 : (iw : ℚ) = 320 := by
        rw [hiw]
        have h : image_320x240.w = 320 := rfl
        rw [h]; norm_num
      have hih2 : (ih : ℚ) = 240 := by
        rw [hih]
        have h : image_320x240.h = 240 := rfl
        rw [h]; norm_num
      rw [if_pos hs, hfw, hiw2] at h1
      rw [if_pos hs2, hfh, hih2] at h2
      exact ⟨_, _, hrun, hc, h1, h2⟩

/-- C8: `destroy_pipeline` returns 0 and leaves both pipeline pointers null from every state of
the layer, changes nothing else of it, and a second call in a row returns the same value and
leaves the same state as the first; on a freshly constructed layer, whose pointers are null,
it changes nothing, and after `create_pipeline` it releases both pipelines. -/
theorem C8_destroy_pipeline_idempotent (self : PriorBox_vulkan) (opt opt2 : Opt)
    (base : PriorBox) (vkdev : VulkanDevice) :
    (self.destroy_pipeline opt).1 = 0
    ∧ (self.destroy_pipeline opt).2.pipeline_priorbox = none
    ∧ (self.destroy_pipeline opt).2.pipeline_priorbox_mxnet = none
    ∧ (self.destroy_pipeline opt).2
        = { self with pipeline_priorbox := none, pipeline_priorbox_mxnet := none }
    ∧ (self.destroy_pipeline opt).2.destroy_pipeline opt2 = self.destroy_pipeline opt
    ∧ (PriorBox_vulkan.ctor base vkdev).pipeline_priorbox = none
    ∧ (PriorBox_vulkan.ctor base vkdev).pipeline_priorbox_mxnet = none
    ∧ (PriorBox_vulkan.ctor base vkdev).destroy_pipeline opt
        = (0, PriorBox_vulkan.ctor base vkdev)
    ∧ (self.create_pipeline opt).2.pipeline_priorbox ≠ none
    ∧ (self.create_pipeline opt).2.pipeline_priorbox_mxnet ≠ none
    ∧ ((self.create_pipeline opt).2.destroy_pipeline opt2).1 = 0
    ∧ ((self.create_pipeline opt).2.destroy_pipeline opt2).2 = (self.destroy_pipeline opt).2 := by
  refine ⟨rfl, rfl, rfl, rfl, rfl, rfl, rfl, rfl, ?_, ?_, rfl, rfl⟩ <;>
    simp [PriorBox_vulkan.create_pipeline]

/-- C9: a Caffe-style `forward` that returns 0 has recorded one dispatch, on
`pipeline_priorbox`, with exactly four bindings in this order: the output tensor, the
`min_sizes` device buffer, the `max_sizes` device buffer when `num_max_size > 0` and the
`min_sizes` device buffer again when `num_max_size = 0`, and the `aspect_ratios` device buffer;
its extent is x = `num_min_size`, y = feature width, z = feature height. -/
theorem C9_caffe_bindings (self : PriorBox_vulkan) (b0 : VkMat) (rest : List VkMat)
    (cmd : VkCompute) (opt : Opt) (out : ForwardOutcome)
    (hn : ¬ ((b0 :: rest).length = 1 ∧ self.image_width = -233 ∧ self.image_height = -233
          ∧ self.max_sizes.empty = true))
    (hrun : self.forward (b0 :: rest) cmd opt = .done out) (hret : out.ret = 0) :
    ∃ d, out.cmd = cmd ++ [d]
      ∧ d.pipeline = .pipeline_priorbox
      ∧ d.bindings.length = 4
      ∧ d.bindings[0]? = some out.top_blob
      ∧ d.bindings[1]? = some self.min_sizes_gpu
      ∧ (0 < self.max_sizes.w → d.bindings[2]? = some self.max_sizes_gpu)
      ∧ (self.max_sizes.w = 0 → d.bindings[2]? = some self.min_sizes_gpu)
      ∧ d.bindings[3]? = some self.aspect_ratios_gpu
      ∧ d.dispatcher.w = self.min_sizes.w
      ∧ d.dispatcher.h = b0.w
      ∧ d.dispatcher.c = b0.h := by
  have hlen : (b0 :: rest).length = 1 ↔ rest = [] := by simp
  rw [hlen] at hn
  rcases forward_cases self b0 rest cmd opt with ⟨hmx, -⟩
      | ⟨-, iw, ih, rd, hrun2, -⟩ | ⟨-, -, -, hrun2⟩
  · exact absurd hmx hn
  · rw [hrun2] at hrun
    cases hrun
    rcases forward_caffe_record self b0.w b0.h iw ih self.elemsize rd cmd opt
      with ⟨-, hr, -⟩ | ⟨-, -, hc⟩
    · rw [hr] at hret
      exact absurd hret (by decide)
    · refine ⟨_, hc, rfl, rfl, rfl, rfl, fun h => ?_, fun h => ?_, rfl, rfl, rfl, rfl⟩
      · simp [h]
      · simp [h]
  · rw [hrun2] at hrun
    cases hrun

/-- C9 at a concrete input: the Caffe-style layer without max sizes, on a 10 x 10 feature map,
binds the output, the `min_sizes` buffer twice and the `aspect_ratios` buffer, with extent
(2, 10, 10). -/
theorem C9_caffe_bindings_witness :
    ¬ ([feature_10x10].length = 1 ∧ caffe_layer.image_width = -233
        ∧ caffe_layer.image_height = -233 ∧ caffe_layer.max_sizes.empty = true)
    ∧ caffe_layer.forward [feature_10x10] [] example_opt
        = .done (caffe_layer.forward_caffe 10 10 300 300 4 [0, 0] [] example_opt)
    ∧ (caffe_layer.forward_caffe 10 10 300 300 4 [0, 0] [] example_opt).ret = 0
    ∧ ∃ d, (caffe_layer.forward_caffe 10 10 300 300 4 [0, 0] [] example_opt).cmd = [] ++ [d]
        ∧ d.pipeline = .pipeline_priorbox
        ∧ d.bindings.length = 4
        ∧ d.bindings[2]? = some caffe_layer.min_sizes_gpu
        ∧ d.dispatcher.w = 2 ∧ d.dispatcher.h = 10 ∧ d.dispatcher.c = 10 := by
  have hn : ¬ ([feature_10x10].length = 1 ∧ caffe_layer.image_width = -233
      ∧ caffe_layer.image_height = -233 ∧ caffe_layer.max_sizes.empty = true) := by decide
  have hrun : caffe_layer.forward [feature_10x10] [] example_opt
      = .done (caffe_layer.forward_caffe 10 10 300 300 4 [0, 0] [] example_opt) := rfl
  have hret : (caffe_layer.forward_caffe 10 10 300 300 4 [0, 0] [] example_opt).ret = 0 := by
    decide
  obtain ⟨d, h1, h2, h3, -, -, -, h7, -, h9, h10, h11⟩ :=
    C9_caffe_bindings caffe_layer feature_10x10 [] [] example_opt _ hn hrun hret
  exact ⟨hn, hrun, hret, d, h1, h2, h3, h7 (by decide), h9, h10, h11⟩

/-- C10: `forward` reads `bottom_blobs` at index 0 and 1 only, and at index 1 only on the
Caffe-style path and only when `image_width` or `image_height` is -233.  So on a non-empty
input list every read is in range, and the run completes, whenever at least two tensors are
supplied or both `image_width` and `image_height` are configured; and on the MXNet-style path
only index 0 is read. -/
theorem C10_input_reads (self : PriorBox_vulkan) (b0 : VkMat) (rest : List VkMat)
    (cmd : VkCompute) (opt : Opt) :
    (1 ∈ (self.forward (b0 :: rest) cmd opt).reads →
      ¬ ((b0 :: rest).length = 1 ∧ self.image_width = -233 ∧ self.image_height = -233
          ∧ self.max_sizes.empty = true)
      ∧ (self.image_width = -233 ∨ self.image_height = -233))
    ∧ (∀ i ∈ (self.forward (b0 :: rest) cmd opt).reads, i = 0 ∨ i = 1)
    ∧ ((2 ≤ (b0 :: rest).length ∨ (self.image_width ≠ -233 ∧ self.image_height ≠ -233)) →
      ∃ out, self.forward (b0 :: rest) cmd opt = .done out
        ∧ ∀ i ∈ out.reads, i < (b0 :: rest).length)
    ∧ (((b0 :: rest).length = 1 ∧ self.image_width = -233 ∧ self.image_height = -233
          ∧ self.max_sizes.empty = true) →
      ∃ out, self.forward (b0 :: rest) cmd opt = .done out ∧ ∀ i ∈ out.reads, i = 0) := by
  have hlen : (b0 :: rest).length = 1 ↔ rest = [] := by simp
  rw [hlen]
  rcases forward_cases self b0 rest cmd opt with ⟨hmx, hrun⟩
      | ⟨hn, iw, ih, rd, hrun, -, hiw2, -, hih2, hrd⟩ | ⟨hn, hr, hs, hrun⟩
  · have hreads := (forward_mxnet_top self b0.w b0.h self.elemsize [0, 0] cmd opt).2
    refine ⟨?_, ?_, fun _ => ⟨_, hrun, ?_⟩, fun _ => ⟨_, hrun, ?_⟩⟩
    · rw [hrun]
      simp [ForwardResult.reads, hreads]
    · rw [hrun]
      simp [ForwardResult.reads, hreads]
    · rw [hreads]
      simp
    · rw [hreads]
      simp
  · have hreads := (forward_caffe_top self b0.w b0.h iw ih self.elemsize rd cmd opt).2
    refine ⟨?_, ?_, fun _ => ⟨_, hrun, ?_⟩, fun h => absurd h hn⟩
    · rw [hrun]
      simp only [ForwardResult.reads]
      rw [hreads, hrd]
      intro h1
      refine ⟨hn, ?_⟩
      by_contra hc
      push_neg at hc
      simp [hc.1, hc.2] at h1
    · rw [hrun]
      simp only [ForwardResult.reads]
      rw [hreads, hrd]
      intro i hi
      by_cases h1 : self.image_width = -233 <;> by_cases h2 : self.image_height = -233 <;>
        simp [h1, h2] at hi <;> omega
    · rw [hreads, hrd]
      intro i hi
      by_cases h1 : self.image_width = -233
      · obtain ⟨b1, tl, hr, -⟩ := hiw2 h1
        subst hr
        by_cases h2 : self.image_height = -233 <;> simp [h1, h2] at hi <;>
          simp only [List.length_cons] <;> omega
      · by_cases h2 : self.image_height = -233
        · obtain ⟨b1, tl, hr, -⟩ := hih2 h2
          subst hr
          simp [h1, h2] at hi
          simp only [List.length_cons]
          omega
        · simp [h1, h2] at hi
          simp only [List.length_cons]
          omega
  · refine ⟨?_, ?_, fun h => ?_, fun h => absurd h hn⟩
    · rw [hrun]
      intro _
      exact ⟨hn, hs⟩
    · rw [hrun]
      simp [ForwardResult.reads]
    · exfalso
      subst hr
      rcases h with h | ⟨h1, h2⟩
      · simp at h
      · rcases hs with h | h
        · exact h1 h
        · exact h2 h

end ncnn
